import Mathlib

/-!
Shallow embedding of the VFIO PCI passthrough device
(`src/mvisor/devices/vfio/vfio_pci.cc`) and proofs about the spec's claims.

Syscalls (ioctl, pread/pwrite, mmap, open, readlink) are modelled by oracle
parameters giving their results; `MV_PANIC` / a failed `MV_ASSERT` abort the
operation, modelled as `Except.error`.
-/

set_option autoImplicit false

namespace Mvisor

/-! ### Constants, as used by vfio_pci.cc (values from the Linux pci_regs.h / vfio.h headers) -/

def PCI_BASE_ADDRESS_IO_BIT : Nat := 1
def PCI_BASE_ADDRESS_MEM_TYPE_64 : Nat := 4
def PCI_MULTI_FUNCTION : Nat := 0x80
def PCI_HEADER_TYPE_NORMAL : Nat := 0
def PCI_STATUS_CAP_LIST : Nat := 0x10
def PCI_CAP_ID_MSI : Nat := 0x05
def PCI_CAP_ID_VNDR : Nat := 0x09
def PCI_CAP_ID_MSIX : Nat := 0x11
def PCI_MSI_FLAGS : Nat := 2
def PCI_MSI_FLAGS_ENABLE : Nat := 0x01
def PCI_MSI_FLAGS_QSIZE : Nat := 0x70
def PCI_MSI_FLAGS_64BIT : Nat := 0x80
def PCI_MSI_FLAGS_MASKBIT : Nat := 0x100
def PCI_DEVICE_CONFIG_SIZE : Nat := 256
def VFIO_PCI_ROM_REGION_INDEX : Nat := 6
def VFIO_PCI_CONFIG_REGION_INDEX : Nat := 7
def VFIO_REGION_INFO_FLAG_READ : Nat := 1
def VFIO_REGION_INFO_FLAG_WRITE : Nat := 2
def VFIO_REGION_INFO_FLAG_MMAP : Nat := 4
def VFIO_GROUP_FLAGS_VIABLE : Nat := 1
def VFIO_DMA_MAP_FLAG_READ : Nat := 1
def VFIO_DMA_MAP_FLAG_WRITE : Nat := 2
def PROT_READ : Nat := 1
def PROT_WRITE : Nat := 2

/-- mmap's MAP_FAILED sentinel, `(void*)-1` as a 64-bit address. -/
def MAP_FAILED_ADDR : Nat := 2 ^ 64 - 1

/-- Outcome of MV_PANIC or a failed MV_ASSERT (both abort the operation). -/
inductive MvError where
  | panic
  | assertFail
deriving DecidableEq, Repr

/-! ### DMA mirror: VfioPci::MapDmaPages / VfioPci::UnmapDmaPages -/

/-- A memory slot of the flat view; fields `begin_` and `end_` model the
source's `slot->begin` / `slot->end` (`end` is reserved in Lean). -/
structure MemSlot where
  begin_ : Nat
  end_ : Nat
  hva : Nat
deriving DecidableEq, Repr

/-- The `vfio_iommu_type1_dma_map` command built by MapDmaPages. -/
structure DmaMapCmd where
  flags : Nat
  vaddr : Nat
  iova : Nat
  size : Nat
deriving DecidableEq, Repr

/-- The `vfio_iommu_type1_dma_unmap` command built by UnmapDmaPages. -/
structure DmaUnmapCmd where
  iova : Nat
  size : Nat
deriving DecidableEq, Repr

/-- VfioPci::MapDmaPages: builds the MAP_DMA command and issues the ioctl
(whose result is the oracle `ioctlRet`); a negative result is MV_PANIC. -/
def mapDmaPages (slot : MemSlot) (ioctlRet : Int) : Except MvError DmaMapCmd :=
  let dma_map : DmaMapCmd :=
    { flags := VFIO_DMA_MAP_FLAG_READ ||| VFIO_DMA_MAP_FLAG_WRITE
      vaddr := slot.hva
      iova := slot.begin_
      size := slot.end_ - slot.begin_ }
  if ioctlRet < 0 then .error .panic else .ok dma_map

/-- VfioPci::UnmapDmaPages: builds the UNMAP_DMA command, issues the ioctl
and ignores its result entirely (no check on `ioctlRet`). -/
def unmapDmaPages (slot : MemSlot) (ioctlRet : Int) : Except MvError DmaUnmapCmd :=
  let dma_unmap : DmaUnmapCmd :=
    { iova := slot.begin_
      size := slot.end_ - slot.begin_ }
  .ok dma_unmap

/-! ### MSI router: VfioPci::UpdateMsiRoutes -/

/-- Observable outcome of one UpdateMsiRoutes pass for the single vector. -/
structure MsiRouteResult where
  enabled : Bool
  fdPassed : Int
deriving DecidableEq, Repr

/-- Number of vectors derived from the MSI control register's queue-size
field, `1 << ((control & PCI_MSI_FLAGS_QSIZE) >> 4)`. -/
def msiNrVectors (control : Nat) : Nat :=
  2 ^ ((control &&& PCI_MSI_FLAGS_QSIZE) >>> 4)

/-- VfioPci::UpdateMsiRoutes: recompute `enabled` from the control register,
assert one vector, pass either the eventfd (enabling) or -1 (disabling) as
the VFIO_DEVICE_SET_IRQS trigger, and MV_PANIC whenever the ioctl (oracle
`ioctlRet`) returns a negative value. -/
def updateMsiRoutes (control : Nat) (event_fd : Int) (ioctlRet : Int) :
    Except MvError MsiRouteResult :=
  let enabled : Bool := control &&& PCI_MSI_FLAGS_ENABLE != 0
  if msiNrVectors control ≠ 1 then .error .assertFail
  else
    let fd : Int := if enabled then event_fd else -1
    if ioctlRet < 0 then .error .panic
    else .ok { enabled := enabled, fdPassed := fd }

/-! ### Region table and config synthesis: VfioPci::SetupPciConfiguration -/

/-- One sparse mmap area of a region; `mmap` records the host address once
the area has been mapped (0 before). -/
structure MmapArea where
  offset : Nat
  size : Nat
  mmap : Nat
deriving DecidableEq, Repr

/-- One entry of the `regions_` table built by SetupVfioDevice:
`offset` is the host file offset of the region on the device descriptor. -/
structure VfioRegion where
  flags : Nat
  offset : Nat
  size : Nat
  mmap_areas : List MmapArea
deriving DecidableEq, Repr

/-- A PCI capability as found in the config-space buffer at some position:
its id byte, its next pointer, and (for MSI) its 16-bit control word. -/
structure CapHeader where
  ctype : Nat
  next : Nat
  control : Nat
deriving DecidableEq, Repr

/-- The guest-visible fields of the 256-byte config header that
SetupPciConfiguration touches; `bars` lists the six 32-bit BAR registers. -/
structure PciHeader where
  irq_pin : Nat
  header_type : Nat
  class_code : Nat
  status : Nat
  capability : Nat
  bars : List Nat
deriving DecidableEq, Repr

/-- msi_config_ as filled by the capability walk. -/
structure MsiConfig where
  is_64bit : Bool := false
  offset : Nat := 0
  is_msix : Bool := false
  length : Nat := 0
deriving DecidableEq, Repr

instance : Inhabited MsiConfig := ⟨{}⟩

/-- IO resource types of the enclosing device model. -/
inductive IoResourceType where
  | pio
  | mmio
  | ram
deriving DecidableEq, Repr

/-- One AddPciBar registration performed during synthesis. -/
structure BarAdd where
  index : Nat
  size : Nat
  rtype : IoResourceType
deriving DecidableEq, Repr

/-- sizeof(MsiCapability64): cap id (1) + next (1) + control (2) +
address (8) + data (2). -/
def MSI_CAP64_LENGTH : Nat := 14

/-- The capability-chain walk of SetupPciConfiguration. `caps` maps a
config-space position to the capability stored there; `fuel` bounds the
`while (pos)` loop, and exhausting it (a chain that never reaches 0) models
the divergence of the C loop as an abort, never as success. -/
def walkCaps : Nat → (Nat → CapHeader) → Nat → MsiConfig → Except MvError MsiConfig
  | 0, _, pos, msi => if pos = 0 then .ok msi else .error .panic
  | fuel + 1, caps, pos, msi =>
    if pos = 0 then .ok msi
    else
      let cap := caps pos
      if cap.ctype = PCI_CAP_ID_MSI then
        if cap.control &&& PCI_MSI_FLAGS_MASKBIT ≠ 0 then .error .assertFail
        else if cap.control &&& PCI_MSI_FLAGS_64BIT = 0 then .error .assertFail
        else walkCaps fuel caps cap.next
          { is_64bit := true, offset := pos, is_msix := false, length := MSI_CAP64_LENGTH }
      else if cap.ctype = PCI_CAP_ID_MSIX then .error .panic
      else walkCaps fuel caps cap.next msi

/-- The positions visited when following the capability chain's next
pointers from `pos`, with the same fuel bound as `walkCaps`. -/
def capChain : Nat → (Nat → CapHeader) → Nat → List Nat
  | 0, _, _ => []
  | fuel + 1, caps, pos =>
    if pos = 0 then [] else pos :: capChain fuel caps (caps pos).next

/-- The bar-register rewrite of the setup loop for one BAR: untouched if the
region is empty or the BAR is IO-space; the 64-bit-memory type bit
(`bar &= ~PCI_BASE_ADDRESS_MEM_TYPE_64`, mask 0xFFFFFFFB on a uint32) is
cleared for a memory BAR. -/
def setupBarValue (bar rsize : Nat) : Nat :=
  if rsize = 0 then bar
  else if bar &&& PCI_BASE_ADDRESS_IO_BIT ≠ 0 then bar
  else if bar &&& PCI_BASE_ADDRESS_MEM_TYPE_64 ≠ 0 then bar &&& 0xFFFFFFFB
  else bar

/-- The AddPciBar registrations of the setup loop, in index order. -/
def setupBarAdds (bars : List Nat) (regions : Nat → VfioRegion) : List BarAdd :=
  (List.range VFIO_PCI_ROM_REGION_INDEX).filterMap fun i =>
    if (regions i).size = 0 then none
    else if bars.getD i 0 &&& PCI_BASE_ADDRESS_IO_BIT ≠ 0 then
      some { index := i, size := (regions i).size, rtype := IoResourceType.pio }
    else
      some { index := i, size := (regions i).size, rtype := IoResourceType.mmio }

/-- Everything SetupPciConfiguration leaves behind: the sanitized header,
the recorded MSI config, the registered PCI BARs, and the file offset of the
final write-back of the header to the device. -/
structure SetupResult where
  header : PciHeader
  msi : MsiConfig
  barAdds : List BarAdd
  writeBackOffset : Nat
deriving DecidableEq, Repr

/-- VfioPci::SetupPciConfiguration: assert the config region holds 256
bytes; read the device's config space (oracle `preadRet`; a short read is
MV_PANIC); clear irq_pin; clear the multi-function bit of header_type and
assert a normal header; force class_code 0x030200; rewrite and register the
six BARs; walk the capability chain when the status register advertises one
(starting at `capability & ~3`); write the header back to the device. -/
def setupPciConfiguration (hdr : PciHeader) (caps : Nat → CapHeader)
    (regions : Nat → VfioRegion) (preadRet : Int) (fuel : Nat) :
    Except MvError SetupResult :=
  let config_region := regions VFIO_PCI_CONFIG_REGION_INDEX
  if config_region.size < PCI_DEVICE_CONFIG_SIZE then .error .assertFail
  else if preadRet < (PCI_DEVICE_CONFIG_SIZE : Int) then .error .panic
  else
    let hdr1 := { hdr with irq_pin := 0, header_type := hdr.header_type &&& 0x7F }
    if hdr1.header_type ≠ PCI_HEADER_TYPE_NORMAL then .error .assertFail
    else
      let hdr2 := { hdr1 with
        class_code := 0x030200
        bars := (List.range VFIO_PCI_ROM_REGION_INDEX).map fun i =>
          setupBarValue (hdr1.bars.getD i 0) (regions i).size }
      let adds := setupBarAdds hdr1.bars regions
      if hdr2.status &&& PCI_STATUS_CAP_LIST ≠ 0 then
        match walkCaps fuel caps (hdr2.capability &&& 0xFC) {} with
        | .error e => .error e
        | .ok msi => .ok ⟨hdr2, msi, adds, config_region.offset⟩
      else .ok ⟨hdr2, {}, adds, config_region.offset⟩

/-! ### Config-space proxy: VfioPci::WritePciConfigSpace / ReadPciConfigSpace -/

/-- Observable side effects of a guest config-space access, in order. -/
inductive CfgAction where
  | devWrite (fileOff : Nat) (len : Nat)
  | baseWrite (off : Nat) (len : Nat)
  | devRead (fileOff : Nat) (len : Nat)
  | baseRead (off : Nat) (len : Nat)
  | updateMsi
deriving DecidableEq, Repr

/-- Modelled from the spec: the `ranges_overlap` helper used by
WritePciConfigSpace lives in the project's utilities header, which is not
under src/; per §4.2 it tests whether the written range overlaps the given
range, i.e. whether the half-open intervals intersect. -/
def ranges_overlap (o1 l1 o2 l2 : Nat) : Bool :=
  decide (o1 < o2 + l2) && decide (o2 < o1 + l1)

/-- VfioPci::WritePciConfigSpace: assert `length <= 4` and
`offset + length <= 256`; `offset` is a uint64_t, so the source's sum is
computed modulo 2^64 and the assert compares the wrapped value; forward the
write to the device descriptor at `config_region.offset + offset` (oracle
`pwriteRet` is the pwrite result, asserted equal to `length`); hand the
write to the base PCI model; re-arm MSI routes iff the written range
overlaps the byte at `msi_config.offset + PCI_MSI_FLAGS`. Returns the
action trace. -/
def writePciConfigSpace (msiCfgOffset cfgRegionOffset : Nat)
    (offset len : Nat) (pwriteRet : Int) : Except MvError (List CfgAction) :=
  if len ≤ 4 then
    if (offset + len) % 2 ^ 64 ≤ PCI_DEVICE_CONFIG_SIZE then
      if pwriteRet = (len : Int) then
        let acts := [CfgAction.devWrite (cfgRegionOffset + offset) len,
                     CfgAction.baseWrite offset len]
        if ranges_overlap offset len (msiCfgOffset + PCI_MSI_FLAGS) 1 then
          .ok (acts ++ [CfgAction.updateMsi])
        else
          .ok acts
      else .error .assertFail
    else .error .assertFail
  else .error .assertFail

/-- VfioPci::ReadPciConfigSpace: assert `offset + length <= 256`, the sum
wrapping modulo 2^64 as in the source (`offset` is a uint64_t); re-read the
targeted bytes from the device descriptor (oracle `preadRet`, asserted equal
to `length`); delegate to the base PCI model. Returns the action trace. -/
def readPciConfigSpace (cfgRegionOffset : Nat) (offset len : Nat)
    (preadRet : Int) : Except MvError (List CfgAction) :=
  if (offset + len) % 2 ^ 64 ≤ PCI_DEVICE_CONFIG_SIZE then
    if preadRet = (len : Int) then
      .ok [CfgAction.devRead (cfgRegionOffset + offset) len,
           CfgAction.baseRead offset len]
    else .error .assertFail
  else .error .assertFail

/-! ### BAR mapper: VfioPci::MapBarRegion / UnmapBarRegion,
ActivatePciBar / DeactivatePciBar -/

/-- A pci_bars_ entry: guest address, size, and host mmap address. -/
structure PciBar where
  address : Nat
  size : Nat
  host_memory : Nat
deriving DecidableEq, Repr

/-- One registered IO resource of the device manager. -/
structure IoResource where
  rtype : IoResourceType
  base : Nat
  size : Nat
  host : Option Nat
deriving DecidableEq, Repr

/-- One live host mapping established by mmap. -/
structure MmapCall where
  fileOffset : Nat
  size : Nat
  prot : Nat
  addr : Nat
deriving DecidableEq, Repr

/-- Observable state the BAR mapper manipulates: the registered IO
resources and live host mappings, in insertion order. -/
structure BarMapState where
  resources : List IoResource
  mapped : List MmapCall
deriving DecidableEq, Repr

/-- AddIoResource of the enclosing device model. -/
def addIoResource (σ : BarMapState) (t : IoResourceType) (base size : Nat)
    (host : Option Nat) : BarMapState :=
  { σ with resources := σ.resources ++ [⟨t, base, size, host⟩] }

/-- RemoveIoResource of the enclosing device model: unregisters the
resources matching the given type and base address. -/
def removeIoResource (σ : BarMapState) (t : IoResourceType) (base : Nat) :
    BarMapState :=
  { σ with resources := σ.resources.filter fun r => !(r.rtype == t && r.base == base) }

/-- mmap: the oracle `mm` gives the host address chosen for a
(file offset, size) request; the live mapping is recorded. -/
def doMmap (mm : Nat → Nat → Nat) (σ : BarMapState) (fileOff size prot : Nat) :
    Nat × BarMapState :=
  let addr := mm fileOff size
  (addr, { σ with mapped := σ.mapped ++ [⟨fileOff, size, prot, addr⟩] })

/-- munmap: drops the recorded live mapping with this address and size. -/
def doMunmap (σ : BarMapState) (addr size : Nat) : BarMapState :=
  { σ with mapped := σ.mapped.filter fun c => !(c.addr == addr && c.size == size) }

/-- The mmap protection derived from the region's READ/WRITE flags. -/
def protOf (flags : Nat) : Nat :=
  (if flags &&& VFIO_REGION_INFO_FLAG_READ ≠ 0 then PROT_READ else 0) |||
  (if flags &&& VFIO_REGION_INFO_FLAG_WRITE ≠ 0 then PROT_WRITE else 0)

/-- The sparse-area loop of MapBarRegion: mmap each area at
`region.offset + area.offset`, MV_PANIC on MAP_FAILED, record the host
address in the area, and publish the sub-range as guest RAM at
`bar.address + area.offset`. -/
def mapAreas (mm : Nat → Nat → Nat) (prot regionOff barAddr : Nat) :
    List MmapArea → BarMapState → Except MvError (List MmapArea × BarMapState)
  | [], σ => .ok ([], σ)
  | a :: rest, σ =>
    let r := doMmap mm σ (regionOff + a.offset) a.size prot
    if r.1 = MAP_FAILED_ADDR then .error .panic
    else
      let σ2 := addIoResource r.2 .ram (barAddr + a.offset) a.size (some r.1)
      match mapAreas mm prot regionOff barAddr rest σ2 with
      | .error e => .error e
      | .ok (as, σ3) => .ok ({ a with mmap := r.1 } :: as, σ3)

/-- VfioPci::MapBarRegion: a region without sparse areas is mmap'd whole at
its host file offset and published as guest RAM at the BAR address (for
`bar.size` bytes, unchecked mmap); with sparse areas, the full BAR window is
published as guest MMIO and each area is mapped and published on top. -/
def mapBarRegion (mm : Nat → Nat → Nat) (region : VfioRegion) (bar : PciBar)
    (σ : BarMapState) : Except MvError (PciBar × VfioRegion × BarMapState) :=
  let protect := protOf region.flags
  if region.mmap_areas.isEmpty then
    let r := doMmap mm σ region.offset region.size protect
    let σ2 := addIoResource r.2 .ram bar.address bar.size (some r.1)
    .ok ({ bar with host_memory := r.1 }, region, σ2)
  else
    let σ1 := addIoResource σ .mmio bar.address bar.size none
    match mapAreas mm protect region.offset bar.address region.mmap_areas σ1 with
    | .error e => .error e
    | .ok (as, σ2) => .ok (bar, { region with mmap_areas := as }, σ2)

/-- VfioPci::UnmapBarRegion. The sparse case removes the RAM resource at
`region.offset + area.offset` (the host file offset plus the area offset),
exactly as the source does, then unregisters the MMIO window. -/
def unmapBarRegion (region : VfioRegion) (bar : PciBar) (σ : BarMapState) :
    BarMapState :=
  if region.mmap_areas.isEmpty then
    doMunmap (removeIoResource σ .ram bar.address) bar.host_memory region.size
  else
    let σ1 := region.mmap_areas.foldl
      (fun acc a =>
        doMunmap (removeIoResource acc .ram (region.offset + a.offset)) a.mmap a.size) σ
    removeIoResource σ1 .mmio bar.address

/-- Outcome of Activate/DeactivatePciBar: either the base PCI model
fallback, or the mapper's result. -/
inductive BarOp where
  | fallback (σ : BarMapState)
  | mapped (bar : PciBar) (region : VfioRegion) (σ : BarMapState)
deriving DecidableEq, Repr

/-- VfioPci::ActivatePciBar: regions carrying the MMAP flag go through
MapBarRegion, others fall back to the base PCI model. -/
def activatePciBar (mm : Nat → Nat → Nat) (region : VfioRegion) (bar : PciBar)
    (σ : BarMapState) : Except MvError BarOp :=
  if region.flags &&& VFIO_REGION_INFO_FLAG_MMAP ≠ 0 then
    match mapBarRegion mm region bar σ with
    | .error e => .error e
    | .ok (b, r, σ1) => .ok (.mapped b r σ1)
  else .ok (.fallback σ)

/-- VfioPci::DeactivatePciBar: regions carrying the MMAP flag go through
UnmapBarRegion, others fall back to the base PCI model. -/
def deactivatePciBar (region : VfioRegion) (bar : PciBar) (σ : BarMapState) :
    Except MvError BarOp :=
  if region.flags &&& VFIO_REGION_INFO_FLAG_MMAP ≠ 0 then
    .ok (.mapped bar region (unmapBarRegion region bar σ))
  else .ok (.fallback σ)

/-- The sparse-area loop as worded by spec §4.3: for each area, mmap at
`region.host_offset + area.offset` with its size and publish that sub-range
as guest RAM at `bar.address + area.offset`. -/
def specMapAreas (mm : Nat → Nat → Nat) (prot regionOff barAddr : Nat) :
    List MmapArea → BarMapState → Except MvError (List MmapArea × BarMapState)
  | [], σ => .ok ([], σ)
  | a :: rest, σ =>
    let r := doMmap mm σ (regionOff + a.offset) a.size prot
    if r.1 = MAP_FAILED_ADDR then .error .panic
    else
      let σ2 := addIoResource r.2 .ram (barAddr + a.offset) a.size (some r.1)
      match specMapAreas mm prot regionOff barAddr rest σ2 with
      | .error e => .error e
      | .ok (as, σ3) => .ok ({ a with mmap := r.1 } :: as, σ3)

/-- Activation of a BAR as worded by spec §4.3, for refinement comparison:
if the MMAP flag is absent, fall back to the base PCI model; with no sparse
areas, mmap the entire region at its host offset with protection derived
from the READ/WRITE flags and publish it as guest RAM at the BAR address
for the region size; with sparse areas, publish the full BAR window as
guest MMIO and then map and publish each area on top. -/
def activateBarPerSpec (mm : Nat → Nat → Nat) (region : VfioRegion)
    (bar : PciBar) (σ : BarMapState) : Except MvError BarOp :=
  if region.flags &&& VFIO_REGION_INFO_FLAG_MMAP = 0 then .ok (.fallback σ)
  else if region.mmap_areas.isEmpty then
    let r := doMmap mm σ region.offset region.size (protOf region.flags)
    .ok (.mapped { bar with host_memory := r.1 } region
      (addIoResource r.2 .ram bar.address region.size (some r.1)))
  else
    let σ1 := addIoResource σ .mmio bar.address bar.size none
    match specMapAreas mm (protOf region.flags) region.offset bar.address
        region.mmap_areas σ1 with
    | .error e => .error e
    | .ok (as, σ2) => .ok (.mapped bar { region with mmap_areas := as } σ2)

/-! ### Attach/detach descriptor lifecycle: VfioPci::Connect / Disconnect -/

/-- Teardown actions of Disconnect, in the order issued. -/
inductive DisAction where
  | unregListener
  | stopPoll (fd : Int)
  | closeFd (fd : Int)
deriving DecidableEq, Repr

/-- Descriptor state of the device: the stored descriptor fields, whether
the memory listener is registered, which descriptors opened by the device
are still open, and which are being polled by the I/O reactor. -/
structure FdState where
  group_fd : Int
  container_fd : Int
  device_fd : Int
  event_fds : List Int
  memory_listener : Bool
  openFds : List Int
  polled : List Int
deriving DecidableEq, Repr

/-- State before Connect: no descriptor opened, nothing polled. -/
def initialFdState : FdState :=
  { group_fd := -1, container_fd := -1, device_fd := -1, event_fds := [],
    memory_listener := false, openFds := [], polled := [] }

/-- Modelled from the spec: `safe_close` is a project utility whose
definition is not under src/; it closes a still-open descriptor
(non-negative) and marks the field closed. Only the open-descriptor set
changes here; callers reset the stored field. -/
def closeFd1 (σ : FdState) (fd : Int) : FdState :=
  if 0 ≤ fd then { σ with openFds := σ.openFds.filter fun x => !(x == fd) }
  else σ

/-- The interrupt loop of Disconnect: for each eventfd, when it is open
(fd > 0), stop polling it and then safe_close it. Returns the actions, the
updated eventfd fields, and the updated state. -/
def disconnectInterrupts : List Int → FdState → (List DisAction × List Int × FdState)
  | [], σ => ([], [], σ)
  | fd :: rest, σ =>
    if 0 < fd then
      let σ1 := { σ with polled := σ.polled.filter fun x => !(x == fd)
                         openFds := σ.openFds.filter fun x => !(x == fd) }
      let r := disconnectInterrupts rest σ1
      (DisAction.stopPoll fd :: DisAction.closeFd fd :: r.1, -1 :: r.2.1, r.2.2)
    else
      let r := disconnectInterrupts rest σ
      (r.1, fd :: r.2.1, r.2.2)

/-- VfioPci::Disconnect: unregister the memory listener when registered;
for each interrupt with an open eventfd, stop polling it before closing it;
then safe_close device_fd, container_fd and group_fd, in that order.
Returns the action trace and the final state. -/
def disconnect (σ : FdState) : List DisAction × FdState :=
  let t0 : List DisAction :=
    if σ.memory_listener then [DisAction.unregListener] else []
  let r1 := disconnectInterrupts σ.event_fds { σ with memory_listener := false }
  let σ4 := closeFd1 (closeFd1 (closeFd1 r1.2.2 σ.device_fd) σ.container_fd) σ.group_fd
  (t0 ++ r1.1 ++ [DisAction.closeFd σ.device_fd, DisAction.closeFd σ.container_fd,
                  DisAction.closeFd σ.group_fd],
   { σ4 with event_fds := r1.2.1, device_fd := -1, container_fd := -1, group_fd := -1 })

/-- Oracle for the syscalls SetupVfioGroup performs. -/
structure ConnectOracle where
  readlink_len : Int
  parse_ok : Bool
  group_fd : Int
  group_status_ret : Int
  group_status_flags : Nat
deriving DecidableEq, Repr

/-- VfioPci::SetupVfioGroup: read the iommu_group symlink (MV_PANIC on
failure), parse the group id from its basename (MV_PANIC on failure), open
/dev/vfio/<id> (MV_PANIC when the open fails), assert VFIO_GROUP_GET_STATUS
succeeds, and MV_PANIC unless the VIABLE flag is set. A failure carries the
state at the point of the abort. -/
def setupVfioGroup (o : ConnectOracle) (σ : FdState) :
    Except (MvError × FdState) FdState :=
  if o.readlink_len < 0 then .error (.panic, σ)
  else if ¬ o.parse_ok then .error (.panic, σ)
  else
    let σ1 := { σ with
      group_fd := o.group_fd
      openFds := if 0 ≤ o.group_fd then σ.openFds ++ [o.group_fd] else σ.openFds }
    if o.group_fd < 0 then .error (.panic, σ1)
    else if o.group_status_ret ≠ 0 then .error (.assertFail, σ1)
    else if o.group_status_flags &&& VFIO_GROUP_FLAGS_VIABLE = 0 then .error (.panic, σ1)
    else .ok σ1

/-- Modelled from the spec: MV_PANIC's definition (logger.h) is not under
src/; per §4.1/§7 an attach failure aborts Connect and reverses the prior
steps, i.e. runs the detach teardown on the state at the failure. Connect
runs SetupVfioGroup first; the later setup steps are abstracted by `rest`.
Returns the error, if any, and the final descriptor state. -/
def connect (o : ConnectOracle)
    (rest : FdState → Except (MvError × FdState) FdState) :
    Option MvError × FdState :=
  match (setupVfioGroup o initialFdState).bind rest with
  | .ok σ => (none, σ)
  | .error (e, σ) => (some e, (disconnect σ).2)

end Mvisor

namespace Mvisor

/-! ### Helper lemmas -/

lemma land_mask_clears_bit2 (b : Nat) :
    (b &&& 0xFFFFFFFB) &&& PCI_BASE_ADDRESS_MEM_TYPE_64 = 0 := by
  rw [PCI_BASE_ADDRESS_MEM_TYPE_64]
  apply Nat.eq_of_testBit_eq
  intro i
  rw [Nat.testBit_land, Nat.testBit_land, Nat.zero_testBit]
  by_cases h2 : i = 2
  · subst h2
    have hm : Nat.testBit 0xFFFFFFFB 2 = false := by decide
    simp [hm]
  · have h4 : Nat.testBit 4 i = false := by
      rcases Nat.lt_or_ge i 3 with h | h
      · interval_cases i
        · decide
        · decide
        · exact absurd rfl h2
      · exact Nat.testBit_eq_false_of_lt (by
          calc (4 : Nat) < 2 ^ 3 := by decide
          _ ≤ 2 ^ i := Nat.pow_le_pow_right (by decide) h)
    simp [h4]

lemma setupBarValue_mem64_clear (bar rsize : Nat) (hs : rsize ≠ 0)
    (hio : bar &&& PCI_BASE_ADDRESS_IO_BIT = 0) :
    setupBarValue bar rsize &&& PCI_BASE_ADDRESS_MEM_TYPE_64 = 0 := by
  rw [setupBarValue, if_neg hs, if_neg (fun h => h hio)]
  by_cases h4 : bar &&& PCI_BASE_ADDRESS_MEM_TYPE_64 ≠ 0
  · rw [if_pos h4]
    exact land_mask_clears_bit2 bar
  · rw [if_neg h4]
    exact not_ne_iff.mp h4

lemma getD_map_range (f : Nat → Nat) (n i : Nat) (hi : i < n) :
    ((List.range n).map f).getD i 0 = f i := by
  rw [List.getD_eq_getElem?_getD, List.getElem?_map, List.getElem?_range hi]
  rfl

/-- Inversion of a successful SetupPciConfiguration run: the masked header
type passed the NORMAL assertion, the resulting header is exactly the
sanitized one, and when a capability list is advertised the capability walk
succeeded and produced the recorded MSI config. -/
lemma setup_ok_inversion (hdr : PciHeader) (caps : Nat → CapHeader)
    (regions : Nat → VfioRegion) (ret : Int) (fuel : Nat) (out : SetupResult)
    (h : setupPciConfiguration hdr caps regions ret fuel = .ok out) :
    hdr.header_type &&& 0x7F = PCI_HEADER_TYPE_NORMAL ∧
    out.header = { hdr with
      irq_pin := 0
      header_type := hdr.header_type &&& 0x7F
      class_code := 0x030200
      bars := (List.range VFIO_PCI_ROM_REGION_INDEX).map fun j =>
        setupBarValue (hdr.bars.getD j 0) (regions j).size } ∧
    (hdr.status &&& PCI_STATUS_CAP_LIST ≠ 0 →
      walkCaps fuel caps (hdr.capability &&& 0xFC) {} = .ok out.msi) := by
  simp only [setupPciConfiguration] at h
  split at h
  · simp at h
  split at h
  · simp at h
  split at h
  · simp at h
  next hht =>
  split at h
  next hcl =>
    split at h
    · simp at h
    next msi heq =>
      injection h with h1
      subst h1
      exact ⟨not_ne_iff.mp hht, rfl, fun _ => heq⟩
  next hcl =>
    injection h with h1
    subst h1
    exact ⟨not_ne_iff.mp hht, rfl, fun hs => absurd hs hcl⟩

/-- Device-reported header for the C1 counterexample: BAR0 is an IO-space
BAR whose address field has bit 2 set (register value 5), normal header
type, no capability list. -/
def c1Header : PciHeader :=
  { irq_pin := 3, header_type := 0, class_code := 0x020000, status := 0,
    capability := 0, bars := [5, 0, 0, 0, 0, 0] }

/-- Empty capability map for the C1 inputs. -/
def c1Caps : Nat → CapHeader := fun _ => ⟨0, 0, 0⟩

/-- Region table for the C1 inputs: a 256-byte config region at index 7 and
a populated BAR0 region of size 0x1000. -/
def c1Regions : Nat → VfioRegion := fun i =>
  if i = VFIO_PCI_CONFIG_REGION_INDEX then ⟨0, 0x70000, 256, []⟩
  else if i = 0 then ⟨7, 0, 0x1000, []⟩
  else ⟨0, 0, 0, []⟩

/-- C1 counterexample: SetupPciConfiguration succeeds on a device whose
populated BAR0 is IO-space with bit 2 set, and leaves that bit set (the
64-bit-memory type bit is only cleared for memory BARs), so the claim that
after Connect every populated BAR has the 64-bit-memory type bit cleared is
false at this input. -/
theorem setup_io_bar_keeps_bit2 :
    (setupPciConfiguration c1Header c1Caps c1Regions 256 16).map
      (fun r => r.header.bars.getD 0 0 &&& PCI_BASE_ADDRESS_MEM_TYPE_64) = .ok 4 ∧
    (c1Regions 0).size ≠ 0 := by
  constructor
  · rfl
  · decide

/-- C1 (amended): after a successful SetupPciConfiguration, irq_pin is 0,
the multi-function bit of header_type is cleared, class_code is 0x030200,
and every populated memory BAR (one whose device-reported register has the
IO-space bit clear) has the 64-bit-memory type bit cleared. -/
theorem setup_header_sanity (hdr : PciHeader) (caps : Nat → CapHeader)
    (regions : Nat → VfioRegion) (ret : Int) (fuel : Nat) (out : SetupResult)
    (h : setupPciConfiguration hdr caps regions ret fuel = .ok out) :
    out.header.irq_pin = 0 ∧
    out.header.header_type &&& PCI_MULTI_FUNCTION = 0 ∧
    out.header.class_code = 0x030200 ∧
    ∀ i, i < VFIO_PCI_ROM_REGION_INDEX → (regions i).size ≠ 0 →
      hdr.bars.getD i 0 &&& PCI_BASE_ADDRESS_IO_BIT = 0 →
      out.header.bars.getD i 0 &&& PCI_BASE_ADDRESS_MEM_TYPE_64 = 0 := by
  obtain ⟨hht, hout, -⟩ := setup_ok_inversion hdr caps regions ret fuel out h
  refine ⟨by rw [hout], ?_, by rw [hout], ?_⟩
  · rw [hout]
    show (hdr.header_type &&& 0x7F) &&& PCI_MULTI_FUNCTION = 0
    rw [hht]
    decide
  · intro i hi hs hio
    rw [hout]
    show ((List.range VFIO_PCI_ROM_REGION_INDEX).map fun j =>
      setupBarValue (hdr.bars.getD j 0) (regions j).size).getD i 0 &&&
      PCI_BASE_ADDRESS_MEM_TYPE_64 = 0
    rw [getD_map_range _ VFIO_PCI_ROM_REGION_INDEX i hi]
    exact setupBarValue_mem64_clear _ _ hs hio

/-- Header for the C1 witness: a populated memory BAR0 with the
64-bit-memory type bit set, multi-function bit set in header_type. -/
def c1wHeader : PciHeader :=
  { irq_pin := 1, header_type := 0x80, class_code := 0, status := 0,
    capability := 0, bars := [0xe0000004, 0, 0, 0, 0, 0] }

/-- The SetupResult the C1 witness run produces. -/
def c1wOut : SetupResult :=
  { header := { irq_pin := 0, header_type := 0, class_code := 0x030200,
                status := 0, capability := 0,
                bars := [0xe0000000, 0, 0, 0, 0, 0] }
    msi := {}
    barAdds := [⟨0, 0x1000, IoResourceType.mmio⟩]
    writeBackOffset := 0x70000 }

/-- Witness for C1's amended theorem at a concrete device. -/
theorem setup_header_sanity_witness :
    setupPciConfiguration c1wHeader c1Caps c1Regions 256 16 = .ok c1wOut ∧
    c1wOut.header.irq_pin = 0 ∧
    c1wOut.header.header_type &&& PCI_MULTI_FUNCTION = 0 ∧
    c1wOut.header.class_code = 0x030200 ∧
    c1wOut.header.bars.getD 0 0 &&& PCI_BASE_ADDRESS_MEM_TYPE_64 = 0 := by
  have h0 : setupPciConfiguration c1wHeader c1Caps c1Regions 256 16 = .ok c1wOut := by
    rfl
  have h := setup_header_sanity c1wHeader c1Caps c1Regions 256 16 c1wOut h0
  exact ⟨h0, h.1, h.2.1, h.2.2.1, h.2.2.2 0 (by decide) (by decide) (by decide)⟩

/-- If the capability walk completes without aborting, then no position on
the traversed chain holds a capability with the MSI-X id. -/
lemma walkCaps_ok_no_msix (caps : Nat → CapHeader) :
    ∀ fuel pos msi out, walkCaps fuel caps pos msi = .ok out →
      ∀ p ∈ capChain fuel caps pos, (caps p).ctype ≠ PCI_CAP_ID_MSIX := by
  intro fuel
  induction fuel with
  | zero =>
    intro pos msi out h p hp
    simp [capChain] at hp
  | succ fuel ih =>
    intro pos msi out h p hp
    rw [walkCaps] at h
    rw [capChain] at hp
    by_cases h0 : pos = 0
    · rw [if_pos h0] at hp
      simp at hp
    · rw [if_neg h0] at h hp
      by_cases hmsi : (caps pos).ctype = PCI_CAP_ID_MSI
      · rw [if_pos hmsi] at h
        by_cases hmask : (caps pos).control &&& PCI_MSI_FLAGS_MASKBIT ≠ 0
        · rw [if_pos hmask] at h
          simp at h
        · rw [if_neg hmask] at h
          by_cases h64 : (caps pos).control &&& PCI_MSI_FLAGS_64BIT = 0
          · rw [if_pos h64] at h
            simp at h
          · rw [if_neg h64] at h
            rcases List.mem_cons.mp hp with hpp | hp2
            · subst hpp
              rw [hmsi]
              decide
            · exact ih _ _ _ h p hp2
      · rw [if_neg hmsi] at h
        by_cases hmsix : (caps pos).ctype = PCI_CAP_ID_MSIX
        · rw [if_pos hmsix] at h
          simp at h
        · rw [if_neg hmsix] at h
          rcases List.mem_cons.mp hp with hpp | hp2
          · subst hpp
            exact hmsix
          · exact ih _ _ _ h p hp2

/-- C9: a successful SetupPciConfiguration that walked an advertised
capability chain never encountered an MSI-X capability on it;
contrapositively, the synthesis pass aborts Connect upon encountering a
capability with the MSI-X id. -/
theorem setup_rejects_msix (hdr : PciHeader) (caps : Nat → CapHeader)
    (regions : Nat → VfioRegion) (ret : Int) (fuel : Nat) (out : SetupResult)
    (h : setupPciConfiguration hdr caps regions ret fuel = .ok out)
    (hs : hdr.status &&& PCI_STATUS_CAP_LIST ≠ 0) :
    ∀ p ∈ capChain fuel caps (hdr.capability &&& 0xFC),
      (caps p).ctype ≠ PCI_CAP_ID_MSIX := by
  obtain ⟨-, -, hw⟩ := setup_ok_inversion hdr caps regions ret fuel out h
  exact walkCaps_ok_no_msix caps fuel _ _ _ (hw hs)

/-- Capability map for the C9 witness: one well-formed 64-bit MSI capability
at position 0x60, end of chain. -/
def c9Caps : Nat → CapHeader :=
  fun p => if p = 0x60 then ⟨PCI_CAP_ID_MSI, 0, 0x81⟩ else ⟨0, 0, 0⟩

/-- Header for the C9 witness: capability list advertised, chain at 0x60. -/
def c9Header : PciHeader :=
  { irq_pin := 0, header_type := 0, class_code := 0, status := 0x10,
    capability := 0x60, bars := [0, 0, 0, 0, 0, 0] }

/-- The SetupResult of the C9 witness run. -/
def c9Out : SetupResult :=
  { header := { irq_pin := 0, header_type := 0, class_code := 0x030200,
                status := 0x10, capability := 0x60,
                bars := [0, 0, 0, 0, 0, 0] }
    msi := { is_64bit := true, offset := 0x60, is_msix := false, length := 14 }
    barAdds := [⟨0, 0x1000, IoResourceType.mmio⟩]
    writeBackOffset := 0x70000 }

/-- Witness for C9 at a concrete device whose chain holds only an MSI
capability: setup succeeds and the chain position is indeed not MSI-X. -/
theorem setup_rejects_msix_witness :
    setupPciConfiguration c9Header c9Caps c1Regions 256 16 = .ok c9Out ∧
    capChain 16 c9Caps 0x60 = [0x60] ∧
    (c9Caps 0x60).ctype ≠ PCI_CAP_ID_MSIX := by
  refine ⟨by rfl, by decide, ?_⟩
  have h := setup_rejects_msix c9Header c9Caps c1Regions 256 16 c9Out
    (by rfl) (by decide)
  exact h 0x60 (by decide)

/-- C3: for every slot, a negative MAP_DMA ioctl result makes MapDmaPages
panic, a non-negative one succeeds with the mirrored range, and UnmapDmaPages
returns normally whatever the UNMAP_DMA ioctl returned. -/
theorem mapDma_fatal_unmapDma_swallowed (slot : MemSlot) (ret : Int) :
    (ret < 0 → mapDmaPages slot ret = .error .panic) ∧
    (0 ≤ ret → mapDmaPages slot ret =
      .ok { flags := 3, vaddr := slot.hva, iova := slot.begin_,
            size := slot.end_ - slot.begin_ }) ∧
    unmapDmaPages slot ret =
      .ok { iova := slot.begin_, size := slot.end_ - slot.begin_ } := by
  refine ⟨fun h => ?_, fun h => ?_, rfl⟩
  · simp [mapDmaPages, h]
  · simp [mapDmaPages, Int.not_lt.mpr h]
    rfl

/-- Witness for C3 at a concrete slot and concrete ioctl results. -/
theorem mapDma_fatal_unmapDma_swallowed_witness :
    mapDmaPages ⟨0x1000, 0x3000, 0x7f00⟩ (-1) = .error .panic ∧
    unmapDmaPages ⟨0x1000, 0x3000, 0x7f00⟩ (-1) = .ok ⟨0x1000, 0x2000⟩ := by
  exact ⟨(mapDma_fatal_unmapDma_swallowed ⟨0x1000, 0x3000, 0x7f00⟩ (-1)).1 (by decide),
         (mapDma_fatal_unmapDma_swallowed ⟨0x1000, 0x3000, 0x7f00⟩ (-1)).2.2⟩

/-- C4 counterexample: with the enable bit clear (disabling direction,
control = 0x80, queue size 0) and a failed VFIO_DEVICE_SET_IRQS submission
(ioctl result -1), UpdateMsiRoutes panics instead of returning normally, so
the claim that a failed submit while disabling is swallowed is false. -/
theorem updateMsi_disable_failure_panics :
    updateMsiRoutes 0x80 5 (-1) = .error .panic ∧
    0x80 &&& PCI_MSI_FLAGS_ENABLE = 0 := by
  constructor
  · rfl
  · decide

/-- C4 amended: a failed VFIO_DEVICE_SET_IRQS submission is fatal in both
directions: whenever the queue-size assertion passes and the ioctl returns a
negative value, UpdateMsiRoutes panics, whether it was enabling (eventfd
trigger) or disabling (trigger -1); on a non-negative result it returns
normally with the trigger it passed. -/
theorem updateMsi_failure_always_fatal (control : Nat) (event_fd ret : Int)
    (hq : msiNrVectors control = 1) :
    (ret < 0 → updateMsiRoutes control event_fd ret = .error .panic) ∧
    (0 ≤ ret → updateMsiRoutes control event_fd ret =
      .ok { enabled := control &&& PCI_MSI_FLAGS_ENABLE != 0,
            fdPassed := if control &&& PCI_MSI_FLAGS_ENABLE != 0 then event_fd else -1 }) := by
  constructor
  · intro h
    simp [updateMsiRoutes, hq, h]
  · intro h
    simp [updateMsiRoutes, hq, Int.not_lt.mpr h]

/-- Witness for C4's amended theorem: enabling direction (control 0x81),
failed submit is fatal; disabling direction shown fatal by the
counterexample theorem separately. -/
theorem updateMsi_failure_always_fatal_witness :
    msiNrVectors 0x81 = 1 ∧ updateMsiRoutes 0x81 7 (-1) = .error .panic := by
  exact ⟨by decide, (updateMsi_failure_always_fatal 0x81 7 (-1) (by decide)).1 (by decide)⟩

/-- C7: an in-bounds guest config write with a full-length pwrite result is
first forwarded to the device descriptor at the config region's host offset
plus the write offset, then handed to the base PCI model, and the trace ends
with an MSI route re-arm exactly when the written range covers the byte at
`msi_config.offset + PCI_MSI_FLAGS` (the byte holding the enable bit). -/
theorem writeCfg_passthrough_then_base_then_msi
    (m c offset len : Nat)
    (h1 : len ≤ 4) (h2 : offset + len ≤ PCI_DEVICE_CONFIG_SIZE) :
    writePciConfigSpace m c offset len (len : Int) =
      .ok (if offset ≤ m + PCI_MSI_FLAGS ∧ m + PCI_MSI_FLAGS < offset + len then
             [CfgAction.devWrite (c + offset) len, CfgAction.baseWrite offset len,
              CfgAction.updateMsi]
           else
             [CfgAction.devWrite (c + offset) len, CfgAction.baseWrite offset len]) := by
  have h2w : (offset + len) % 2 ^ 64 ≤ PCI_DEVICE_CONFIG_SIZE := by
    rw [Nat.mod_eq_of_lt
      (lt_of_le_of_lt h2 (by decide : PCI_DEVICE_CONFIG_SIZE < 2 ^ 64))]
    exact h2
  rw [writePciConfigSpace, if_pos h1, if_pos h2w, if_pos rfl]
  by_cases hov : offset ≤ m + PCI_MSI_FLAGS ∧ m + PCI_MSI_FLAGS < offset + len
  · rw [if_pos hov]
    rw [if_pos (show ranges_overlap offset len (m + PCI_MSI_FLAGS) 1 = true by
      simp only [ranges_overlap, Bool.and_eq_true, decide_eq_true_eq]
      omega)]
    rfl
  · rw [if_neg hov]
    rw [if_neg (show ¬ ranges_overlap offset len (m + PCI_MSI_FLAGS) 1 = true by
      simp only [ranges_overlap, Bool.and_eq_true, decide_eq_true_eq]
      omega)]

/-- Witness for C7 at a concrete MSI offset 0x68, config region offset
0x70000, a 2-byte write at the control register covering the enable-bit
byte, and another write missing it. -/
theorem writeCfg_passthrough_then_base_then_msi_witness :
    writePciConfigSpace 0x68 0x70000 0x6a 2 2 =
      .ok [CfgAction.devWrite 0x7006a 2, CfgAction.baseWrite 0x6a 2,
           CfgAction.updateMsi] ∧
    writePciConfigSpace 0x68 0x70000 0x10 4 4 =
      .ok [CfgAction.devWrite 0x70010 4, CfgAction.baseWrite 0x10 4] := by
  constructor
  · have h := writeCfg_passthrough_then_base_then_msi 0x68 0x70000 0x6a 2
      (by decide) (by decide)
    rw [if_pos (by decide)] at h
    exact_mod_cast h
  · have h := writeCfg_passthrough_then_base_then_msi 0x68 0x70000 0x10 4
      (by decide) (by decide)
    rw [if_neg (by decide)] at h
    exact_mod_cast h

/-- C10 counterexample: the source's bound check sums a uint64_t offset
with the length, wrapping modulo 2^64. At offset 2^64 - 2 and length 4 the
mathematical sum far exceeds 256 but the wrapped sum is 2, so both asserts
pass and the access proceeds without abort (here with full-length
pread/pwrite results it completes normally, touching the device), refuting
the claim that every access with offset + length beyond 256 aborts. -/
theorem cfg_wrap_escapes_bounds_abort :
    2 ^ 64 - 2 + 4 > PCI_DEVICE_CONFIG_SIZE ∧
    writePciConfigSpace 0x68 0x70000 (2 ^ 64 - 2) 4 4 =
      .ok [CfgAction.devWrite (0x70000 + (2 ^ 64 - 2)) 4,
           CfgAction.baseWrite (2 ^ 64 - 2) 4] ∧
    readPciConfigSpace 0x70000 (2 ^ 64 - 2) 4 4 =
      .ok [CfgAction.devRead (0x70000 + (2 ^ 64 - 2)) 4,
           CfgAction.baseRead (2 ^ 64 - 2) 4] := by
  refine ⟨by decide, rfl, rfl⟩

/-- C10 (amended): a guest config access violating the wrapped bounds
aborts with a failed assertion before touching the device:
WritePciConfigSpace requires `length <= 4` and
`(offset + length) mod 2^64 <= 256`; ReadPciConfigSpace requires
`(offset + length) mod 2^64 <= 256`; only an access whose 64-bit sum wraps
back below the bound (offset at least 2^64 - 4) escapes the check. -/
theorem cfg_access_bounds_abort (m c offset len : Nat) (ret : Int) :
    (¬ (len ≤ 4 ∧ (offset + len) % 2 ^ 64 ≤ PCI_DEVICE_CONFIG_SIZE) →
      writePciConfigSpace m c offset len ret = .error .assertFail) ∧
    (¬ (offset + len) % 2 ^ 64 ≤ PCI_DEVICE_CONFIG_SIZE →
      readPciConfigSpace c offset len ret = .error .assertFail) := by
  constructor
  · intro h
    rw [writePciConfigSpace]
    by_cases h1 : len ≤ 4
    · rw [if_pos h1, if_neg (fun h2 => h ⟨h1, h2⟩)]
    · rw [if_neg h1]
  · intro h
    rw [readPciConfigSpace, if_neg h]

/-- Witness for C10's amended theorem: an 8-byte config write aborts, and a
read crossing the 256-byte boundary (without wrapping) aborts. -/
theorem cfg_access_bounds_abort_witness :
    writePciConfigSpace 0x68 0x70000 0x10 8 8 = .error .assertFail ∧
    readPciConfigSpace 0x70000 0xfc 8 8 = .error .assertFail := by
  exact ⟨(cfg_access_bounds_abort 0x68 0x70000 0x10 8 8).1 (by decide),
         (cfg_access_bounds_abort 0x68 0x70000 0xfc 8 8).2 (by decide)⟩

/-- Sparse BAR configuration exhibiting the C2 divergence: the BAR sits at
guest address 0xe0000000 while its region's host file offset is
0x100000000, with one sparse area (offset 0, size 0x1000). Flags:
READ | WRITE | MMAP. -/
def c2Region : VfioRegion :=
  { flags := 7, offset := 0x100000000, size := 0x2000,
    mmap_areas := [⟨0, 0x1000, 0⟩] }

/-- The pci_bars_ entry of the C2 scenario. -/
def c2Bar : PciBar := { address := 0xe0000000, size := 0x2000, host_memory := 0 }

/-- mmap oracle of the C2 scenario: deterministic fresh host addresses. -/
def c2mm : Nat → Nat → Nat := fun off _ => off + 0x1000000

/-- The region after activation recorded the area's host mapping. -/
def c2Region1 : VfioRegion :=
  { flags := 7, offset := 0x100000000, size := 0x2000,
    mmap_areas := [⟨0, 0x1000, 0x101000000⟩] }

/-- State after the first activation: MMIO window plus the RAM sub-range at
`bar.address + area.offset`. -/
def c2σ1 : BarMapState :=
  { resources := [⟨IoResourceType.mmio, 0xe0000000, 0x2000, none⟩,
                  ⟨IoResourceType.ram, 0xe0000000, 0x1000, some 0x101000000⟩]
    mapped := [⟨0x100000000, 0x1000, 3, 0x101000000⟩] }

/-- State after deactivation: the RAM sub-range registered at
`bar.address + area.offset` was NOT removed (the code removed at
`region.offset + area.offset` instead, which matches nothing). -/
def c2σ2 : BarMapState :=
  { resources := [⟨IoResourceType.ram, 0xe0000000, 0x1000, some 0x101000000⟩]
    mapped := [] }

/-- State after re-activation from c2σ2: the stale RAM resource is now
duplicated. -/
def c2σ3 : BarMapState :=
  { resources := [⟨IoResourceType.ram, 0xe0000000, 0x1000, some 0x101000000⟩,
                  ⟨IoResourceType.mmio, 0xe0000000, 0x2000, none⟩,
                  ⟨IoResourceType.ram, 0xe0000000, 0x1000, some 0x101000000⟩]
    mapped := [⟨0x100000000, 0x1000, 3, 0x101000000⟩] }

/-- C2: evaluation of the embedded code at the failing input. Activation of
the sparse BAR registers RAM at `bar.address + area.offset` (0xe0000000),
but deactivation removes RAM at `region.offset + area.offset`
(0x100000000), so the registered RAM sub-range survives deactivation and a
second activation does not reproduce the state of a single activation: the
claimed Activate-Deactivate-Activate idempotence is violated by the code. -/
theorem deactivate_misses_sparse_ram :
    activatePciBar c2mm c2Region c2Bar ⟨[], []⟩ = .ok (.mapped c2Bar c2Region1 c2σ1) ∧
    deactivatePciBar c2Region1 c2Bar c2σ1 = .ok (.mapped c2Bar c2Region1 c2σ2) ∧
    (⟨IoResourceType.ram, 0xe0000000, 0x1000, some 0x101000000⟩ : IoResource) ∈
      c2σ2.resources ∧
    activatePciBar c2mm c2Region1 c2Bar c2σ2 = .ok (.mapped c2Bar c2Region1 c2σ3) ∧
    c2σ3 ≠ c2σ1 := by
  refine ⟨rfl, rfl, by decide, rfl, by decide⟩

lemma mapAreas_eq_spec (mm : Nat → Nat → Nat) (prot regionOff barAddr : Nat)
    (areas : List MmapArea) :
    ∀ σ, mapAreas mm prot regionOff barAddr areas σ =
      specMapAreas mm prot regionOff barAddr areas σ := by
  induction areas with
  | nil => intro σ; rfl
  | cons a rest ih =>
    intro σ
    rw [mapAreas, specMapAreas]
    simp only [ih]

/-- C6: ActivatePciBar refines the spec's case analysis: under the setup
invariant that the registered BAR size equals the region size, the code's
activation equals the spec-worded activation (fallback without the MMAP
flag; whole-region mmap published as RAM at the BAR address without sparse
areas; MMIO window plus per-area RAM sub-ranges with sparse areas). -/
theorem activate_matches_spec (mm : Nat → Nat → Nat) (region : VfioRegion)
    (bar : PciBar) (σ : BarMapState) (hsz : bar.size = region.size) :
    activatePciBar mm region bar σ = activateBarPerSpec mm region bar σ := by
  rw [activatePciBar, activateBarPerSpec]
  by_cases hf : region.flags &&& VFIO_REGION_INFO_FLAG_MMAP = 0
  · rw [if_neg (not_not_intro hf), if_pos hf]
  · rw [if_pos hf, if_neg hf, mapBarRegion]
    by_cases he : region.mmap_areas.isEmpty
    · rw [if_pos he, if_pos he]
      rw [hsz]
    · rw [if_neg he, if_neg he]
      simp only [mapAreas_eq_spec]
      cases hres : specMapAreas mm (protOf region.flags) region.offset bar.address
          region.mmap_areas (addIoResource σ IoResourceType.mmio bar.address bar.size none) with
      | error e => rfl
      | ok p =>
        cases p with
        | mk as σ2 => rfl

/-- Region for the C6 witness: sparse, READ | WRITE | MMAP. -/
def c6Region : VfioRegion :=
  { flags := 7, offset := 0x200000, size := 0x2000,
    mmap_areas := [⟨0, 0x1000, 0⟩, ⟨0x1800, 0x800, 0⟩] }

/-- BAR for the C6 witness, sized like its region. -/
def c6Bar : PciBar := { address := 0xd0000000, size := 0x2000, host_memory := 0 }

/-- mmap oracle for the C6 witness. -/
def c6mm : Nat → Nat → Nat := fun off _ => off + 0x10000

/-- Witness for C6 on a concrete sparse BAR whose size matches its region. -/
theorem activate_matches_spec_witness :
    c6Bar.size = c6Region.size ∧
    activatePciBar c6mm c6Region c6Bar ⟨[], []⟩ =
      activateBarPerSpec c6mm c6Region c6Bar ⟨[], []⟩ := by
  exact ⟨rfl, activate_matches_spec c6mm c6Region c6Bar ⟨[], []⟩ rfl⟩

lemma mem_filter_ne (l : List Int) (fd x : Int) :
    x ∈ l.filter (fun y => !(y == fd)) ↔ x ∈ l ∧ x ≠ fd := by
  simp [List.mem_filter]

lemma closeFd1_mem (σ : FdState) (fd x : Int) :
    x ∈ (closeFd1 σ fd).openFds ↔ x ∈ σ.openFds ∧ (0 ≤ fd → x ≠ fd) := by
  rw [closeFd1]
  by_cases h : 0 ≤ fd
  · rw [if_pos h]
    show x ∈ σ.openFds.filter (fun y => !(y == fd)) ↔ _
    rw [mem_filter_ne]
    tauto
  · rw [if_neg h]
    simp [h]

lemma closeFd1_polled (σ : FdState) (fd : Int) :
    (closeFd1 σ fd).polled = σ.polled := by
  rw [closeFd1]
  by_cases h : 0 ≤ fd
  · rw [if_pos h]
  · rw [if_neg h]

lemma disconnectInterrupts_trace (fds : List Int) :
    ∀ σ : FdState, (∀ fd ∈ fds, 0 < fd) →
      (disconnectInterrupts fds σ).1 =
        fds.flatMap fun fd => [DisAction.stopPoll fd, DisAction.closeFd fd] := by
  induction fds with
  | nil => intro σ _; rfl
  | cons fd rest ih =>
    intro σ h
    have hfd := h fd (List.mem_cons_self fd rest)
    simp only [disconnectInterrupts, if_pos hfd]
    rw [ih _ (fun f hf => h f (List.mem_cons_of_mem fd hf)), List.flatMap_cons]
    rfl

lemma disconnectInterrupts_mem (fds : List Int) :
    ∀ (σ : FdState) (x : Int), (∀ fd ∈ fds, 0 < fd) →
      (x ∈ (disconnectInterrupts fds σ).2.2.openFds ↔ x ∈ σ.openFds ∧ x ∉ fds) ∧
      (x ∈ (disconnectInterrupts fds σ).2.2.polled ↔ x ∈ σ.polled ∧ x ∉ fds) := by
  induction fds with
  | nil =>
    intro σ x _
    constructor <;> simp [disconnectInterrupts]
  | cons fd rest ih =>
    intro σ x h
    have hfd := h fd (List.mem_cons_self fd rest)
    have hrest : ∀ f ∈ rest, 0 < f := fun f hf => h f (List.mem_cons_of_mem fd hf)
    simp only [disconnectInterrupts, if_pos hfd]
    obtain ⟨ho, hp⟩ := ih
      { σ with polled := σ.polled.filter fun y => !(y == fd)
               openFds := σ.openFds.filter fun y => !(y == fd) } x hrest
    constructor
    · rw [ho]
      show (x ∈ σ.openFds.filter (fun y => !(y == fd)) ∧ x ∉ rest) ↔ _
      rw [mem_filter_ne, List.mem_cons]
      tauto
    · rw [hp]
      show (x ∈ σ.polled.filter (fun y => !(y == fd)) ∧ x ∉ rest) ↔ _
      rw [mem_filter_ne, List.mem_cons]
      tauto

/-- C8: Disconnect's action trace is exactly: unregister the memory
listener, then per eventfd a stop-poll immediately followed by its close,
then close device_fd, container_fd and group_fd in that order (the reverse
of attach order); afterwards no descriptor opened by the device remains
open and nothing the device polled is still polled. -/
theorem disconnect_reverse_teardown (σ : FdState)
    (hml : σ.memory_listener = true)
    (hev : ∀ fd ∈ σ.event_fds, 0 < fd)
    (hdev : 0 < σ.device_fd) (hcon : 0 < σ.container_fd) (hgrp : 0 < σ.group_fd)
    (hopen : ∀ x ∈ σ.openFds,
      x ∈ σ.event_fds ∨ x = σ.device_fd ∨ x = σ.container_fd ∨ x = σ.group_fd)
    (hpoll : ∀ x ∈ σ.polled, x ∈ σ.event_fds) :
    (disconnect σ).1 =
      DisAction.unregListener ::
        ((σ.event_fds.flatMap fun fd => [DisAction.stopPoll fd, DisAction.closeFd fd]) ++
         [DisAction.closeFd σ.device_fd, DisAction.closeFd σ.container_fd,
          DisAction.closeFd σ.group_fd]) ∧
    (disconnect σ).2.openFds = [] ∧
    (disconnect σ).2.polled = [] := by
  refine ⟨?_, ?_, ?_⟩
  · show (if σ.memory_listener then [DisAction.unregListener] else []) ++
      (disconnectInterrupts σ.event_fds { σ with memory_listener := false }).1 ++
      [DisAction.closeFd σ.device_fd, DisAction.closeFd σ.container_fd,
       DisAction.closeFd σ.group_fd] = _
    rw [hml, disconnectInterrupts_trace σ.event_fds _ hev]
    simp
  · apply List.eq_nil_iff_forall_not_mem.mpr
    intro x hx
    have hx2 : x ∈ (closeFd1 (closeFd1 (closeFd1
        (disconnectInterrupts σ.event_fds { σ with memory_listener := false }).2.2
        σ.device_fd) σ.container_fd) σ.group_fd).openFds := hx
    rw [closeFd1_mem] at hx2
    obtain ⟨hx3, hng⟩ := hx2
    rw [closeFd1_mem] at hx3
    obtain ⟨hx4, hnc⟩ := hx3
    rw [closeFd1_mem] at hx4
    obtain ⟨hx5, hnd⟩ := hx4
    rw [(disconnectInterrupts_mem σ.event_fds _ x hev).1] at hx5
    obtain ⟨hx6, hnev⟩ := hx5
    have hx7 : x ∈ σ.openFds := hx6
    rcases hopen x hx7 with hin | rfl | rfl | rfl
    · exact hnev hin
    · exact hnd (le_of_lt hdev) rfl
    · exact hnc (le_of_lt hcon) rfl
    · exact hng (le_of_lt hgrp) rfl
  · apply List.eq_nil_iff_forall_not_mem.mpr
    intro x hx
    have hx2 : x ∈ (closeFd1 (closeFd1 (closeFd1
        (disconnectInterrupts σ.event_fds { σ with memory_listener := false }).2.2
        σ.device_fd) σ.container_fd) σ.group_fd).polled := hx
    rw [closeFd1_polled, closeFd1_polled, closeFd1_polled] at hx2
    rw [(disconnectInterrupts_mem σ.event_fds _ x hev).2] at hx2
    obtain ⟨hx3, hnev⟩ := hx2
    exact hnev (hpoll x hx3)

/-- A fully attached descriptor state for the C8 witness. -/
def c8σ : FdState :=
  { group_fd := 3, container_fd := 4, device_fd := 5, event_fds := [6],
    memory_listener := true, openFds := [3, 4, 5, 6], polled := [6] }

/-- Witness for C8 at a concrete attached state. -/
theorem disconnect_reverse_teardown_witness :
    (disconnect c8σ).1 =
      DisAction.unregListener ::
        ((c8σ.event_fds.flatMap fun fd => [DisAction.stopPoll fd, DisAction.closeFd fd]) ++
         [DisAction.closeFd c8σ.device_fd, DisAction.closeFd c8σ.container_fd,
          DisAction.closeFd c8σ.group_fd]) ∧
    (disconnect c8σ).2.openFds = [] ∧
    (disconnect c8σ).2.polled = [] := by
  exact disconnect_reverse_teardown c8σ rfl (by decide) (by decide) (by decide)
    (by decide) (by decide) (by decide)

/-- The descriptor state right after a successful group open: only the
group descriptor is open. -/
def groupOnlyState (fd : Int) : FdState :=
  { group_fd := fd, container_fd := -1, device_fd := -1, event_fds := [],
    memory_listener := false, openFds := [fd], polled := [] }

/-- C5: attaching against a group whose VFIO_GROUP_GET_STATUS flags lack
the VIABLE bit makes Connect fail with a panic, and after the
reverse-teardown of the failure no descriptor opened by the device remains
open (and nothing remains polled), whatever the later attach steps would
have done. -/
theorem nonviable_group_fails_and_closes (o : ConnectOracle)
    (rest : FdState → Except (MvError × FdState) FdState)
    (h1 : 0 ≤ o.readlink_len) (h2 : o.parse_ok = true) (h3 : 0 < o.group_fd)
    (h4 : o.group_status_ret = 0)
    (h5 : o.group_status_flags &&& VFIO_GROUP_FLAGS_VIABLE = 0) :
    (connect o rest).1 = some MvError.panic ∧
    (connect o rest).2.openFds = [] ∧
    (connect o rest).2.polled = [] := by
  have hge : (0 : Int) ≤ o.group_fd := le_of_lt h3
  have hs : setupVfioGroup o initialFdState =
      .error (.panic, groupOnlyState o.group_fd) := by
    simp [setupVfioGroup, initialFdState, groupOnlyState, Int.not_lt.mpr h1, h2,
      Int.not_lt.mpr hge, h4, h5, hge]
  have hc : connect o rest =
      (some MvError.panic, (disconnect (groupOnlyState o.group_fd)).2) := by
    rw [connect, hs]
    rfl
  rw [hc]
  refine ⟨rfl, ?_, ?_⟩
  · show (closeFd1 (closeFd1 (closeFd1
      (disconnectInterrupts [] (groupOnlyState o.group_fd)).2.2
      (-1)) (-1)) o.group_fd).openFds = []
    apply List.eq_nil_iff_forall_not_mem.mpr
    intro x hx
    rw [closeFd1_mem] at hx
    obtain ⟨hx2, hng⟩ := hx
    rw [closeFd1_mem] at hx2
    obtain ⟨hx3, -⟩ := hx2
    rw [closeFd1_mem] at hx3
    obtain ⟨hx4, -⟩ := hx3
    have hx5 : x ∈ [o.group_fd] := hx4
    rcases List.mem_singleton.mp hx5 with rfl
    exact hng hge rfl
  · show (closeFd1 (closeFd1 (closeFd1
      (disconnectInterrupts [] (groupOnlyState o.group_fd)).2.2
      (-1)) (-1)) o.group_fd).polled = []
    rw [closeFd1_polled, closeFd1_polled, closeFd1_polled]
    rfl

/-- Oracle for the C5 witness: a healthy group open whose status flags have
the VIABLE bit clear. -/
def c5Oracle : ConnectOracle :=
  { readlink_len := 10, parse_ok := true, group_fd := 5, group_status_ret := 0,
    group_status_flags := 0 }

/-- Witness for C5 at a concrete oracle, with the remaining attach steps
the identity. -/
theorem nonviable_group_fails_and_closes_witness :
    (connect c5Oracle Except.ok).1 = some MvError.panic ∧
    (connect c5Oracle Except.ok).2.openFds = [] ∧
    (connect c5Oracle Except.ok).2.polled = [] := by
  exact nonviable_group_fails_and_closes c5Oracle Except.ok (by decide) rfl
    (by decide) rfl (by decide)

end Mvisor
